import Mathlib

/-!
Verification of the oddsidizer odds-conversion engine.

This file shallowly embeds the conversion engine of the repository
(src/config.rs, src/convert.rs, src/lookup_tables.rs, src/odds.rs) and
proves or refutes the specification claims about it.

The `rust_decimal::Decimal` numeric type is an external collaborator of the
library (spec section 2 lists it as a dependency, not re-specified beyond the
required operations).  It is modelled here by the exact rationals `ℚ`, with
its rounding strategies and its checked narrowing conversions
(`to_i32`/`to_u32`/`to_u64`) modelled explicitly.  The claims settled below
are insensitive to the difference between exact rational arithmetic and
28-significant-digit decimal arithmetic: the properties are either purely
structural (lookup precedence, error dispatch, denominator bounds), concern
values whose computations are exact in both models (two-decimal-place table
keys, integral rounds), or carry the specification's own "no rounding loss"
proviso.
-/

section
attribute [local semireducible] Rat.ofScientific Rat.mul Rat.inv Rat.add Rat.sub

/-- Model of `rust_decimal::Decimal`: exact rational arithmetic. -/
abbrev Dec := ℚ

/-- The rounding strategies of `rust_decimal::RoundingStrategy`. -/
inductive RoundingStrategy where
  | MidpointAwayFromZero
  | MidpointNearestEven
  | MidpointTowardZero
  | ToZero
  | AwayFromZero
  | ToNegativeInfinity
  | ToPositiveInfinity
deriving DecidableEq, Repr

/-- Rounding of a decimal value to an integer under a given strategy; models
`Decimal::round_dp_with_strategy(0, strategy)` of the collaborator decimal
type (on exact rationals). -/
def roundInt : RoundingStrategy → ℚ → ℤ
  | .MidpointAwayFromZero, q => if 0 ≤ q then ⌊q + 1/2⌋ else -⌊-q + 1/2⌋
  | .MidpointNearestEven, q =>
      if q - ⌊q⌋ < 1/2 then ⌊q⌋
      else if 1/2 < q - ⌊q⌋ then ⌊q⌋ + 1
      else if ⌊q⌋ % 2 = 0 then ⌊q⌋ else ⌊q⌋ + 1
  | .MidpointTowardZero, q => if 0 ≤ q then ⌈q - 1/2⌉ else -⌈-q - 1/2⌉
  | .ToZero, q => if 0 ≤ q then ⌊q⌋ else ⌈q⌉
  | .AwayFromZero, q => if 0 ≤ q then ⌈q⌉ else ⌊q⌋
  | .ToNegativeInfinity, q => ⌊q⌋
  | .ToPositiveInfinity, q => ⌈q⌉

/-- Model of `round_dp_with_strategy(0, s)`: the rounded value as a decimal. -/
def roundDp0 (s : RoundingStrategy) (q : ℚ) : ℚ := (roundInt s q : ℚ)

/-- Truncation of a rational toward zero (the integral part). -/
def truncQ (q : ℚ) : ℤ := if 0 ≤ q then ⌊q⌋ else ⌈q⌉

/-- Model of `Decimal::to_i32` (num-traits `ToPrimitive`): truncate toward
zero, `none` when the result does not fit in a 32-bit signed integer. -/
def toI32 (q : ℚ) : Option ℤ :=
  if -(2^31) ≤ truncQ q ∧ truncQ q ≤ 2^31 - 1 then some (truncQ q) else none

/-- Model of `Decimal::to_u32`: truncate, `none` on negative values or when
the result does not fit in a 32-bit unsigned integer. -/
def toU32 (q : ℚ) : Option ℕ :=
  if 0 ≤ q then (if ⌊q⌋ ≤ 2^32 - 1 then some ⌊q⌋.toNat else none) else none

/-- Model of `Decimal::to_u64`: truncate, `none` on negative values or when
the result does not fit in a 64-bit unsigned integer. -/
def toU64 (q : ℚ) : Option ℕ :=
  if 0 ≤ q then (if ⌊q⌋ ≤ 2^64 - 1 then some ⌊q⌋.toNat else none) else none

/-- Saturating 64-bit multiplication, models `u64::saturating_mul`. -/
def satMul64 (x y : ℕ) : ℕ := min (x * y) (2^64 - 1)

/-- Saturating 64-bit addition, models `u64::saturating_add`. -/
def satAdd64 (x y : ℕ) : ℕ := min (x + y) (2^64 - 1)

/-- `FractionStrategy` from src/config.rs. -/
inductive FractionStrategy where
  | Plain
  | Simplify
deriving DecidableEq, Repr

/-- `LookupVariant` from src/config.rs. -/
inductive LookupVariant where
  | None
  | Basic
  | Extended
deriving DecidableEq, Repr

/-- `ConversionConfig` from src/config.rs. -/
structure ConversionConfig where
  lookup_tables_variant : LookupVariant
  fraction_strategy : FractionStrategy
  rounding_strategy : RoundingStrategy
deriving DecidableEq, Repr

/-- `DEFAULT_CONVERSION_CONFIG` from src/config.rs: basic lookup, simplify
strategy, midpoint-away-from-zero rounding. -/
def ConversionConfig.default : ConversionConfig :=
  { lookup_tables_variant := .Basic
    fraction_strategy := .Simplify
    rounding_strategy := .MidpointAwayFromZero }

/-- Builder `ConversionConfig::no_lookup` from src/config.rs. -/
def ConversionConfig.no_lookup (c : ConversionConfig) : ConversionConfig :=
  { c with lookup_tables_variant := .None }

/-- Builder `ConversionConfig::extended_lookup` from src/config.rs. -/
def ConversionConfig.extended_lookup (c : ConversionConfig) : ConversionConfig :=
  { c with lookup_tables_variant := .Extended }

/-- Builder `ConversionConfig::plain_fraction_strategy` from src/config.rs. -/
def ConversionConfig.plain_fraction_strategy (c : ConversionConfig) : ConversionConfig :=
  { c with fraction_strategy := .Plain }

/-- Builder `ConversionConfig::rounding_strategy` from src/config.rs (renamed
here to avoid clashing with the field projection). -/
def ConversionConfig.with_rounding_strategy (c : ConversionConfig)
    (s : RoundingStrategy) : ConversionConfig :=
  { c with rounding_strategy := s }

/-- `ConversionError` from src/convert.rs. -/
inductive ConversionError where
  | AmericanZero
  | DenominatorZero
  | DecimalOverflow
  | InvalidDecimal
deriving DecidableEq, Repr

instance {ε α : Type} [DecidableEq ε] [DecidableEq α] :
    DecidableEq (Except ε α) := fun x y =>
  match x, y with
  | .ok a, .ok b =>
      if h : a = b then .isTrue (congrArg Except.ok h)
      else .isFalse (fun he => h (Except.ok.inj he))
  | .error a, .error b =>
      if h : a = b then .isTrue (congrArg Except.error h)
      else .isFalse (fun he => h (Except.error.inj he))
  | .ok _, .error _ => .isFalse (fun he => Except.noConfusion he)
  | .error _, .ok _ => .isFalse (fun he => Except.noConfusion he)

/-- Keyed retrieval in an association list; models `HashMap::get` on the
lookup tables (each table is built by inserts with pairwise distinct keys,
so first-match retrieval agrees with the hash map). -/
def mapGet {α β : Type} [DecidableEq α] (l : List (α × β)) (k : α) : Option β :=
  (l.find? (fun p => p.1 = k)).map Prod.snd

/-- `DECIMAL_TO_FRACTION` lookup table from src/lookup_tables.rs. -/
def get_decimal_to_fraction_map : List (Dec × (ℕ × ℕ)) := [
  ((101/100 : Dec), (1, 100)),
  ((12/10 : Dec), (1, 5)),
  ((122/100 : Dec), (2, 9)),
  ((125/100 : Dec), (1, 4)),
  ((129/100 : Dec), (2, 7)),
  ((13/10 : Dec), (3, 10)),
  ((133/100 : Dec), (1, 3)),
  ((136/100 : Dec), (4, 11)),
  ((14/10 : Dec), (2, 5)),
  ((144/100 : Dec), (4, 9)),
  ((15/10 : Dec), (1, 2)),
  ((153/100 : Dec), (8, 15)),
  ((157/100 : Dec), (4, 7)),
  ((162/100 : Dec), (8, 13)),
  ((167/100 : Dec), (4, 6)),
  ((173/100 : Dec), (8, 11)),
  ((18/10 : Dec), (4, 5)),
  ((183/100 : Dec), (5, 6)),
  ((191/100 : Dec), (10, 11)),
  ((2 : Dec), (1, 1)),
  ((205/100 : Dec), (21, 20)),
  ((21/10 : Dec), (11, 10)),
  ((215/100 : Dec), (23, 20)),
  ((22/10 : Dec), (6, 5)),
  ((225/100 : Dec), (5, 4)),
  ((238/100 : Dec), (11, 8)),
  ((24/10 : Dec), (7, 5)),
  ((25/10 : Dec), (6, 4)),
  ((26/10 : Dec), (8, 5)),
  ((262/100 : Dec), (13, 8)),
  ((275/100 : Dec), (7, 4)),
  ((28/10 : Dec), (9, 5)),
  ((288/100 : Dec), (15, 8)),
  ((3 : Dec), (2, 1)),
  ((32/10 : Dec), (11, 5)),
  ((325/100 : Dec), (9, 4)),
  ((34/10 : Dec), (12, 5)),
  ((35/10 : Dec), (5, 2)),
  ((36/10 : Dec), (13, 5)),
  ((375/100 : Dec), (11, 4)),
  ((4 : Dec), (3, 1)),
  ((42/10 : Dec), (16, 5)),
  ((433/100 : Dec), (10, 3)),
  ((45/10 : Dec), (7, 2)),
  ((5 : Dec), (4, 1)),
  ((55/10 : Dec), (9, 2)),
  ((6 : Dec), (5, 1)),
  ((65/10 : Dec), (11, 2)),
  ((7 : Dec), (6, 1)),
  ((75/10 : Dec), (13, 2)),
  ((8 : Dec), (7, 1)),
  ((85/10 : Dec), (15, 2)),
  ((9 : Dec), (8, 1)),
  ((10 : Dec), (9, 1)),
  ((11 : Dec), (10, 1)),
  ((12 : Dec), (11, 1)),
  ((13 : Dec), (12, 1)),
  ((14 : Dec), (13, 1)),
  ((15 : Dec), (14, 1)),
  ((16 : Dec), (15, 1)),
  ((17 : Dec), (16, 1)),
  ((19 : Dec), (18, 1)),
  ((21 : Dec), (20, 1)),
  ((26 : Dec), (25, 1)),
  ((34 : Dec), (33, 1)),
  ((51 : Dec), (50, 1)),
  ((67 : Dec), (66, 1)),
  ((101 : Dec), (100, 1)),
  ((1001 : Dec), (1000, 1))]

/-- `DECIMAL_TO_FRACTION_EXTENDED` lookup table from src/lookup_tables.rs. -/
def get_decimal_to_fraction_extended_map : List (Dec × (ℕ × ℕ)) := [
  ((10010/10000 : Dec), (1, 1000)),
  ((10013/10000 : Dec), (1, 750)),
  ((10020/10000 : Dec), (1, 500)),
  ((10025/10000 : Dec), (1, 400)),
  ((10030/10000 : Dec), (1, 300)),
  ((10040/10000 : Dec), (1, 250)),
  ((10050/10000 : Dec), (1, 200)),
  ((10070/10000 : Dec), (1, 150)),
  ((10120/10000 : Dec), (1, 80)),
  ((10150/10000 : Dec), (1, 66)),
  ((10200/10000 : Dec), (1, 50)),
  ((10250/10000 : Dec), (1, 40)),
  ((10300/10000 : Dec), (1, 33)),
  ((10400/10000 : Dec), (1, 25)),
  ((10500/10000 : Dec), (1, 20)),
  ((10550/10000 : Dec), (1, 18)),
  ((10600/10000 : Dec), (1, 16)),
  ((10700/10000 : Dec), (1, 14)),
  ((10800/10000 : Dec), (1, 12)),
  ((10900/10000 : Dec), (1, 11)),
  ((11000/10000 : Dec), (1, 10)),
  ((11100/10000 : Dec), (1, 9)),
  ((11200/10000 : Dec), (1, 8)),
  ((11300/10000 : Dec), (2, 15)),
  ((11400/10000 : Dec), (1, 7)),
  ((11500/10000 : Dec), (2, 13)),
  ((11600/10000 : Dec), (1, 6)),
  ((11800/10000 : Dec), (2, 11)),
  ((11900/10000 : Dec), (19, 100)),
  ((12100/10000 : Dec), (21, 100)),
  ((12300/10000 : Dec), (23, 100)),
  ((12400/10000 : Dec), (6, 25)),
  ((12600/10000 : Dec), (13, 50)),
  ((12700/10000 : Dec), (27, 100)),
  ((13100/10000 : Dec), (31, 100)),
  ((13200/10000 : Dec), (8, 25)),
  ((13400/10000 : Dec), (17, 50)),
  ((13500/10000 : Dec), (7, 20)),
  ((13700/10000 : Dec), (37, 100)),
  ((13800/10000 : Dec), (19, 50)),
  ((13900/10000 : Dec), (39, 100)),
  ((14100/10000 : Dec), (41, 100)),
  ((14200/10000 : Dec), (21, 50)),
  ((14300/10000 : Dec), (43, 100)),
  ((14500/10000 : Dec), (9, 20)),
  ((14600/10000 : Dec), (23, 50)),
  ((14700/10000 : Dec), (40, 85)),
  ((14800/10000 : Dec), (12, 25)),
  ((14900/10000 : Dec), (49, 100)),
  ((15100/10000 : Dec), (51, 100)),
  ((15200/10000 : Dec), (13, 25)),
  ((15400/10000 : Dec), (27, 50)),
  ((15500/10000 : Dec), (11, 20)),
  ((15600/10000 : Dec), (14, 25)),
  ((15800/10000 : Dec), (29, 50)),
  ((15900/10000 : Dec), (59, 100)),
  ((16000/10000 : Dec), (3, 5)),
  ((16100/10000 : Dec), (8, 13)),
  ((16300/10000 : Dec), (63, 100)),
  ((16400/10000 : Dec), (16, 25)),
  ((16500/10000 : Dec), (13, 20)),
  ((16600/10000 : Dec), (4, 6)),
  ((16800/10000 : Dec), (34, 50)),
  ((16900/10000 : Dec), (69, 100)),
  ((17000/10000 : Dec), (7, 10)),
  ((17100/10000 : Dec), (71, 100)),
  ((17200/10000 : Dec), (8, 11)),
  ((17400/10000 : Dec), (37, 50)),
  ((17500/10000 : Dec), (3, 4)),
  ((17600/10000 : Dec), (19, 25)),
  ((17700/10000 : Dec), (77, 100)),
  ((17800/10000 : Dec), (39, 50)),
  ((17900/10000 : Dec), (79, 100)),
  ((18100/10000 : Dec), (81, 100)),
  ((18200/10000 : Dec), (41, 50)),
  ((18400/10000 : Dec), (21, 25)),
  ((18500/10000 : Dec), (17, 20)),
  ((18600/10000 : Dec), (20, 23)),
  ((18700/10000 : Dec), (87, 100)),
  ((18800/10000 : Dec), (22, 25)),
  ((18900/10000 : Dec), (89, 100)),
  ((19000/10000 : Dec), (9, 10)),
  ((19200/10000 : Dec), (23, 25)),
  ((19300/10000 : Dec), (93, 100)),
  ((19400/10000 : Dec), (47, 50)),
  ((19500/10000 : Dec), (20, 21)),
  ((19600/10000 : Dec), (24, 25)),
  ((19700/10000 : Dec), (97, 100)),
  ((19800/10000 : Dec), (49, 50)),
  ((19900/10000 : Dec), (99, 100)),
  ((20100/10000 : Dec), (101, 100)),
  ((20200/10000 : Dec), (51, 50)),
  ((20300/10000 : Dec), (103, 100)),
  ((20400/10000 : Dec), (26, 25)),
  ((20600/10000 : Dec), (53, 50)),
  ((20700/10000 : Dec), (107, 100)),
  ((20800/10000 : Dec), (27, 25)),
  ((20900/10000 : Dec), (109, 100)),
  ((21100/10000 : Dec), (111, 100)),
  ((21200/10000 : Dec), (28, 25)),
  ((21300/10000 : Dec), (113, 100)),
  ((21400/10000 : Dec), (57, 50)),
  ((21600/10000 : Dec), (29, 25)),
  ((21700/10000 : Dec), (117, 100)),
  ((21800/10000 : Dec), (59, 50)),
  ((21900/10000 : Dec), (119, 100)),
  ((22100/10000 : Dec), (121, 100)),
  ((22200/10000 : Dec), (61, 50)),
  ((22300/10000 : Dec), (123, 100)),
  ((22400/10000 : Dec), (31, 25)),
  ((22600/10000 : Dec), (63, 50)),
  ((22700/10000 : Dec), (127, 100)),
  ((22800/10000 : Dec), (32, 25)),
  ((23000/10000 : Dec), (13, 10)),
  ((23200/10000 : Dec), (33, 25)),
  ((23400/10000 : Dec), (67, 50)),
  ((23500/10000 : Dec), (27, 20)),
  ((23600/10000 : Dec), (34, 25)),
  ((23700/10000 : Dec), (11, 8)),
  ((24200/10000 : Dec), (71, 50)),
  ((24400/10000 : Dec), (36, 25)),
  ((24500/10000 : Dec), (29, 20)),
  ((24600/10000 : Dec), (73, 50)),
  ((24800/10000 : Dec), (37, 25)),
  ((25200/10000 : Dec), (38, 25)),
  ((25400/10000 : Dec), (77, 50)),
  ((25600/10000 : Dec), (39, 25)),
  ((25800/10000 : Dec), (79, 50)),
  ((26400/10000 : Dec), (41, 25)),
  ((26600/10000 : Dec), (83, 50)),
  ((26800/10000 : Dec), (42, 25)),
  ((27000/10000 : Dec), (17, 10)),
  ((27200/10000 : Dec), (43, 25)),
  ((27400/10000 : Dec), (87, 50)),
  ((27600/10000 : Dec), (44, 25)),
  ((27800/10000 : Dec), (89, 50)),
  ((28200/10000 : Dec), (91, 50)),
  ((28400/10000 : Dec), (46, 25)),
  ((28600/10000 : Dec), (93, 50)),
  ((28700/10000 : Dec), (15, 8)),
  ((29000/10000 : Dec), (19, 10)),
  ((29200/10000 : Dec), (48, 25)),
  ((29400/10000 : Dec), (97, 50)),
  ((29600/10000 : Dec), (49, 25)),
  ((29800/10000 : Dec), (99, 50)),
  ((30500/10000 : Dec), (41, 20)),
  ((31000/10000 : Dec), (21, 10)),
  ((31250/10000 : Dec), (85, 40)),
  ((31500/10000 : Dec), (43, 20)),
  ((33000/10000 : Dec), (23, 10)),
  ((33500/10000 : Dec), (47, 20)),
  ((34500/10000 : Dec), (49, 20)),
  ((35500/10000 : Dec), (51, 20)),
  ((36500/10000 : Dec), (53, 20)),
  ((37000/10000 : Dec), (27, 10)),
  ((38000/10000 : Dec), (14, 5)),
  ((38500/10000 : Dec), (57, 20)),
  ((39500/10000 : Dec), (59, 20)),
  ((40500/10000 : Dec), (61, 20)),
  ((41000/10000 : Dec), (31, 10)),
  ((41500/10000 : Dec), (63, 20)),
  ((42500/10000 : Dec), (13, 4)),
  ((43000/10000 : Dec), (33, 10)),
  ((43500/10000 : Dec), (67, 20)),
  ((44000/10000 : Dec), (17, 5)),
  ((44500/10000 : Dec), (69, 20)),
  ((45500/10000 : Dec), (71, 20)),
  ((46000/10000 : Dec), (18, 5)),
  ((46500/10000 : Dec), (73, 20)),
  ((47000/10000 : Dec), (37, 10)),
  ((47500/10000 : Dec), (15, 4)),
  ((48000/10000 : Dec), (19, 5)),
  ((48500/10000 : Dec), (77, 20)),
  ((49000/10000 : Dec), (39, 10)),
  ((49500/10000 : Dec), (79, 20)),
  ((51000/10000 : Dec), (41, 10)),
  ((52000/10000 : Dec), (21, 5)),
  ((53000/10000 : Dec), (43, 10)),
  ((54000/10000 : Dec), (22, 5)),
  ((56000/10000 : Dec), (23, 5)),
  ((57000/10000 : Dec), (47, 10)),
  ((58000/10000 : Dec), (24, 5)),
  ((59000/10000 : Dec), (49, 10)),
  ((62000/10000 : Dec), (26, 5)),
  ((64000/10000 : Dec), (27, 5)),
  ((66000/10000 : Dec), (28, 5)),
  ((68000/10000 : Dec), (29, 5)),
  ((72000/10000 : Dec), (31, 5)),
  ((74000/10000 : Dec), (32, 5)),
  ((76000/10000 : Dec), (33, 5)),
  ((78000/10000 : Dec), (34, 5)),
  ((82000/10000 : Dec), (36, 5)),
  ((84000/10000 : Dec), (37, 5)),
  ((86000/10000 : Dec), (38, 5)),
  ((88000/10000 : Dec), (39, 5)),
  ((92000/10000 : Dec), (41, 5)),
  ((94000/10000 : Dec), (42, 5)),
  ((95000/10000 : Dec), (17, 2)),
  ((96000/10000 : Dec), (43, 5)),
  ((98000/10000 : Dec), (44, 5)),
  ((230000/10000 : Dec), (22, 1)),
  ((290000/10000 : Dec), (28, 1)),
  ((310000/10000 : Dec), (30, 1)),
  ((360000/10000 : Dec), (35, 1)),
  ((410000/10000 : Dec), (40, 1)),
  ((460000/10000 : Dec), (45, 1)),
  ((560000/10000 : Dec), (55, 1)),
  ((610000/10000 : Dec), (60, 1)),
  ((710000/10000 : Dec), (70, 1)),
  ((760000/10000 : Dec), (75, 1)),
  ((810000/10000 : Dec), (80, 1)),
  ((860000/10000 : Dec), (85, 1)),
  ((910000/10000 : Dec), (90, 1)),
  ((960000/10000 : Dec), (95, 1)),
  ((1110000/10000 : Dec), (110, 1)),
  ((1210000/10000 : Dec), (120, 1)),
  ((1260000/10000 : Dec), (125, 1)),
  ((1310000/10000 : Dec), (130, 1)),
  ((1410000/10000 : Dec), (140, 1)),
  ((1510000/10000 : Dec), (150, 1)),
  ((1760000/10000 : Dec), (175, 1)),
  ((2010000/10000 : Dec), (200, 1)),
  ((2260000/10000 : Dec), (225, 1)),
  ((2510000/10000 : Dec), (250, 1)),
  ((2760000/10000 : Dec), (275, 1)),
  ((3010000/10000 : Dec), (300, 1)),
  ((4010000/10000 : Dec), (400, 1)),
  ((5010000/10000 : Dec), (500, 1))]

/-- `AMERICAN_TO_FRACTION` lookup table from src/lookup_tables.rs. -/
def get_american_to_fraction_map : List (ℤ × (ℕ × ℕ)) := [
  (((-10000 : ℤ)), (1, 100)),
  (((-500 : ℤ)), (1, 5)),
  (((-450 : ℤ)), (2, 9)),
  (((-400 : ℤ)), (1, 4)),
  (((-350 : ℤ)), (2, 7)),
  (((-333 : ℤ)), (3, 10)),
  (((-300 : ℤ)), (1, 3)),
  (((-275 : ℤ)), (4, 11)),
  (((-250 : ℤ)), (2, 5)),
  (((-225 : ℤ)), (4, 9)),
  (((-200 : ℤ)), (1, 2)),
  (((-188 : ℤ)), (8, 15)),
  (((-175 : ℤ)), (4, 7)),
  (((-163 : ℤ)), (8, 13)),
  (((-150 : ℤ)), (4, 6)),
  (((-138 : ℤ)), (8, 11)),
  (((-125 : ℤ)), (4, 5)),
  (((-120 : ℤ)), (5, 6)),
  (((-110 : ℤ)), (10, 11)),
  (((100 : ℤ)), (1, 1)),
  (((105 : ℤ)), (21, 20)),
  (((110 : ℤ)), (11, 10)),
  (((115 : ℤ)), (23, 20)),
  (((120 : ℤ)), (6, 5)),
  (((125 : ℤ)), (5, 4)),
  (((138 : ℤ)), (11, 8)),
  (((140 : ℤ)), (7, 5)),
  (((150 : ℤ)), (6, 4)),
  (((160 : ℤ)), (8, 5)),
  (((163 : ℤ)), (13, 8)),
  (((175 : ℤ)), (7, 4)),
  (((180 : ℤ)), (9, 5)),
  (((188 : ℤ)), (15, 8)),
  (((200 : ℤ)), (2, 1)),
  (((220 : ℤ)), (11, 5)),
  (((225 : ℤ)), (9, 4)),
  (((240 : ℤ)), (12, 5)),
  (((250 : ℤ)), (5, 2)),
  (((260 : ℤ)), (13, 5)),
  (((275 : ℤ)), (11, 4)),
  (((300 : ℤ)), (3, 1)),
  (((320 : ℤ)), (16, 5)),
  (((333 : ℤ)), (10, 3)),
  (((350 : ℤ)), (7, 2)),
  (((400 : ℤ)), (4, 1)),
  (((450 : ℤ)), (9, 2)),
  (((500 : ℤ)), (5, 1)),
  (((550 : ℤ)), (11, 2)),
  (((600 : ℤ)), (6, 1)),
  (((650 : ℤ)), (13, 2)),
  (((700 : ℤ)), (7, 1)),
  (((750 : ℤ)), (15, 2)),
  (((800 : ℤ)), (8, 1)),
  (((900 : ℤ)), (9, 1)),
  (((1000 : ℤ)), (10, 1)),
  (((1100 : ℤ)), (11, 1)),
  (((1200 : ℤ)), (12, 1)),
  (((1300 : ℤ)), (13, 1)),
  (((1400 : ℤ)), (14, 1)),
  (((1500 : ℤ)), (15, 1)),
  (((1600 : ℤ)), (16, 1)),
  (((1800 : ℤ)), (18, 1)),
  (((2000 : ℤ)), (20, 1)),
  (((2500 : ℤ)), (25, 1)),
  (((3300 : ℤ)), (33, 1)),
  (((5000 : ℤ)), (50, 1)),
  (((6600 : ℤ)), (66, 1)),
  (((10000 : ℤ)), (100, 1)),
  (((100000 : ℤ)), (1000, 1))]

/-- `AMERICAN_TO_FRACTION_EXTENDED` lookup table from src/lookup_tables.rs
(currently empty in the source). -/
def get_american_to_fraction_extended_map : List (ℤ × (ℕ × ℕ)) := []

/-- `AMERICAN_TO_DECIMAL` lookup table from src/lookup_tables.rs. -/
def get_american_to_decimal_map : List (ℤ × Dec) := [
  (((-10000 : ℤ)), (101/100 : Dec)),
  (((-500 : ℤ)), (12/10 : Dec)),
  (((-450 : ℤ)), (122/100 : Dec)),
  (((-400 : ℤ)), (125/100 : Dec)),
  (((-350 : ℤ)), (129/100 : Dec)),
  (((-333 : ℤ)), (13/10 : Dec)),
  (((-300 : ℤ)), (133/100 : Dec)),
  (((-275 : ℤ)), (136/100 : Dec)),
  (((-250 : ℤ)), (14/10 : Dec)),
  (((-225 : ℤ)), (144/100 : Dec)),
  (((-200 : ℤ)), (15/10 : Dec)),
  (((-188 : ℤ)), (153/100 : Dec)),
  (((-175 : ℤ)), (157/100 : Dec)),
  (((-163 : ℤ)), (162/100 : Dec)),
  (((-150 : ℤ)), (167/100 : Dec)),
  (((-138 : ℤ)), (173/100 : Dec)),
  (((-125 : ℤ)), (18/10 : Dec)),
  (((-120 : ℤ)), (183/100 : Dec)),
  (((-110 : ℤ)), (191/100 : Dec)),
  (((100 : ℤ)), (2 : Dec)),
  (((105 : ℤ)), (205/100 : Dec)),
  (((110 : ℤ)), (21/10 : Dec)),
  (((115 : ℤ)), (215/100 : Dec)),
  (((120 : ℤ)), (22/10 : Dec)),
  (((125 : ℤ)), (225/100 : Dec)),
  (((138 : ℤ)), (238/100 : Dec)),
  (((140 : ℤ)), (24/10 : Dec)),
  (((150 : ℤ)), (25/10 : Dec)),
  (((160 : ℤ)), (26/10 : Dec)),
  (((163 : ℤ)), (262/100 : Dec)),
  (((175 : ℤ)), (275/100 : Dec)),
  (((180 : ℤ)), (28/10 : Dec)),
  (((188 : ℤ)), (288/100 : Dec)),
  (((200 : ℤ)), (3 : Dec)),
  (((220 : ℤ)), (32/10 : Dec)),
  (((225 : ℤ)), (325/100 : Dec)),
  (((240 : ℤ)), (34/10 : Dec)),
  (((250 : ℤ)), (35/10 : Dec)),
  (((260 : ℤ)), (36/10 : Dec)),
  (((275 : ℤ)), (375/100 : Dec)),
  (((300 : ℤ)), (4 : Dec)),
  (((320 : ℤ)), (42/10 : Dec)),
  (((333 : ℤ)), (433/100 : Dec)),
  (((350 : ℤ)), (45/10 : Dec)),
  (((400 : ℤ)), (5 : Dec)),
  (((450 : ℤ)), (55/10 : Dec)),
  (((500 : ℤ)), (6 : Dec)),
  (((550 : ℤ)), (65/10 : Dec)),
  (((600 : ℤ)), (7 : Dec)),
  (((650 : ℤ)), (75/10 : Dec)),
  (((700 : ℤ)), (8 : Dec)),
  (((750 : ℤ)), (85/10 : Dec)),
  (((800 : ℤ)), (9 : Dec)),
  (((900 : ℤ)), (10 : Dec)),
  (((1000 : ℤ)), (11 : Dec)),
  (((1100 : ℤ)), (12 : Dec)),
  (((1200 : ℤ)), (13 : Dec)),
  (((1300 : ℤ)), (14 : Dec)),
  (((1400 : ℤ)), (15 : Dec)),
  (((1500 : ℤ)), (16 : Dec)),
  (((1600 : ℤ)), (17 : Dec)),
  (((1800 : ℤ)), (19 : Dec)),
  (((2000 : ℤ)), (21 : Dec)),
  (((2500 : ℤ)), (26 : Dec)),
  (((3300 : ℤ)), (34 : Dec)),
  (((5000 : ℤ)), (51 : Dec)),
  (((6600 : ℤ)), (67 : Dec)),
  (((10000 : ℤ)), (101 : Dec)),
  (((100000 : ℤ)), (1001 : Dec))]

/-- `AMERICAN_TO_DECIMAL_EXTENDED` lookup table from src/lookup_tables.rs
(currently empty in the source). -/
def get_american_to_decimal_extended_map : List (ℤ × Dec) := []

/-- `american_to_decimal_inner` from src/convert.rs. -/
def american_to_decimal_inner (value : ℤ) : Except ConversionError Dec :=
  if value > 0 then .ok ((value : Dec) / 100 + 1)
  else if value < 0 then .ok ((100 : Dec) / (-(value : Dec)) + 1)
  else .error .AmericanZero

/-- `american_to_decimal_custom` from src/convert.rs. -/
def american_to_decimal_custom (value : ℤ) (config : ConversionConfig) :
    Except ConversionError Dec :=
  if value = 0 then .error .AmericanZero
  else
    match config.lookup_tables_variant with
    | .Basic =>
        match mapGet get_american_to_decimal_map value with
        | some ret => .ok ret
        | none => american_to_decimal_inner value
    | .Extended =>
        match (mapGet get_american_to_decimal_map value).or
            (mapGet get_american_to_decimal_extended_map value) with
        | some ret => .ok ret
        | none => american_to_decimal_inner value
    | .None => american_to_decimal_inner value

/-- `american_to_decimal` from src/convert.rs (default parameters). -/
def american_to_decimal (value : ℤ) : Except ConversionError Dec :=
  american_to_decimal_custom value ConversionConfig.default

/-- `fractional_to_decimal` from src/convert.rs. -/
def fractional_to_decimal (num den : ℕ) : Except ConversionError Dec :=
  if den = 0 then .error .DenominatorZero
  else .ok ((num : Dec) / (den : Dec) + 1)

/-- `decimal_to_fractional_plain` from src/convert.rs. -/
def decimal_to_fractional_plain (value : Dec) (config : ConversionConfig) :
    Except ConversionError (ℕ × ℕ) :=
  if value ≤ 1 then .error .InvalidDecimal
  else
    let numerator : Dec := (value - 1) * 1000
    let numerator : ℕ :=
      (toU64 (roundDp0 config.rounding_strategy numerator)).getD 0
    let divisor : ℕ := Nat.gcd numerator 100000
    let num : Dec := (numerator : Dec) / (divisor : Dec)
    let den : Dec := (1000 : Dec) / (divisor : Dec)
    .ok ((toU32 num).getD 0, (toU32 den).getD 0)

/-- The iteration of `decimal_to_fractional_simplify` from src/convert.rs,
written with explicit fuel.  The Rust `loop` terminates because from the
second iteration on the committed denominator grows at Fibonacci rate and is
capped at 1000; the fuel argument only makes the recursion structural, and
the invariants proved below hold on every exit path, the fuel-exhaustion one
included. -/
def simplifyLoop :
    ℕ → Dec → Dec → ℕ → ℕ → ℕ → ℕ → ℕ × ℕ
  | 0, _, _, num, den, _, _ => (num, den)
  | fuel + 1, epsilon, a, num, den, num_prev, den_prev =>
    match toU64 ((⌊a⌋ : Dec)) with
    | none => (num, den)
    | some whole =>
      let num_next := satAdd64 (satMul64 whole num) num_prev
      let den_next := satAdd64 (satMul64 whole den) den_prev
      if den_next > 1000 then (num, den)
      else
        let remainder := a - (⌊a⌋ : Dec)
        if remainder < epsilon then (num_next, den_next)
        else simplifyLoop fuel epsilon (1 / remainder) num_next den_next num den

/-- Fuel for `simplifyLoop`; far beyond the at most circa 17 iterations the
1000 denominator cap allows. -/
def simplifyFuel : ℕ := 4096

/-- `decimal_to_fractional_simplify` from src/convert.rs. -/
def decimal_to_fractional_simplify (value : Dec) :
    Except ConversionError (ℕ × ℕ) :=
  if value ≤ 1 then .error .InvalidDecimal
  else
    let fractional_part := value - 1
    let epsilon := min (value - 1) (1/100 : Dec)
    let (num, den) := simplifyLoop simplifyFuel epsilon fractional_part 1 0 0 1
    let den := if den = 0 then 1 else den
    .ok (num % 2^32, den % 2^32)

/-- `decimal_to_fractional_custom` from src/convert.rs. -/
def decimal_to_fractional_custom (value : Dec) (config : ConversionConfig) :
    Except ConversionError (ℕ × ℕ) :=
  match config.lookup_tables_variant with
  | .Basic =>
      match mapGet get_decimal_to_fraction_map value with
      | some ret => .ok ret
      | none =>
          match config.fraction_strategy with
          | .Plain => decimal_to_fractional_plain value config
          | .Simplify => decimal_to_fractional_simplify value
  | .Extended =>
      match (mapGet get_decimal_to_fraction_map value).or
          (mapGet get_decimal_to_fraction_extended_map value) with
      | some ret => .ok ret
      | none =>
          match config.fraction_strategy with
          | .Plain => decimal_to_fractional_plain value config
          | .Simplify => decimal_to_fractional_simplify value
  | .None =>
      match config.fraction_strategy with
      | .Plain => decimal_to_fractional_plain value config
      | .Simplify => decimal_to_fractional_simplify value

/-- `decimal_to_fractional` from src/convert.rs (default parameters). -/
def decimal_to_fractional (value : Dec) : Except ConversionError (ℕ × ℕ) :=
  decimal_to_fractional_custom value ConversionConfig.default

/-- `american_to_fractional_custom` from src/convert.rs.  Note that on a
lookup miss the source converts to a decimal with the internal formula and
then calls the DEFAULT-config entry point `decimal_to_fractional`. -/
def american_to_fractional_custom (value : ℤ) (config : ConversionConfig) :
    Except ConversionError (ℕ × ℕ) :=
  match config.lookup_tables_variant with
  | .Basic =>
      match mapGet get_american_to_fraction_map value with
      | some ret => .ok ret
      | none =>
          (american_to_decimal_inner value).bind fun decimal =>
            decimal_to_fractional decimal
  | .Extended =>
      match (mapGet get_american_to_fraction_map value).or
          (mapGet get_american_to_fraction_extended_map value) with
      | some ret => .ok ret
      | none =>
          (american_to_decimal_inner value).bind fun decimal =>
            decimal_to_fractional decimal
  | .None =>
      (american_to_decimal_inner value).bind fun decimal =>
        decimal_to_fractional decimal

/-- `american_to_fractional` from src/convert.rs (default parameters). -/
def american_to_fractional (value : ℤ) : Except ConversionError (ℕ × ℕ) :=
  american_to_fractional_custom value ConversionConfig.default

/-- `normalize_american_odds` from src/convert.rs.  Rust integer division on
`i32` truncates toward zero, hence `Int.tdiv`. -/
def normalize_american_odds (odds : ℤ) : ℤ :=
  if odds > 0 ∧ odds < 100 then -(Int.tdiv (100 * 100) odds)
  else if odds < 0 ∧ odds > -100 then Int.tdiv (100 * 100) (-odds)
  else odds

/-- `decimal_to_american_custom` from src/convert.rs. -/
def decimal_to_american_custom (decimal : Dec) (config : ConversionConfig) :
    Except ConversionError ℤ :=
  if decimal ≥ 2 then
    match toI32 (roundDp0 config.rounding_strategy ((decimal - 1) * 100)) with
    | some v => .ok (normalize_american_odds v)
    | none => .error .DecimalOverflow
  else if decimal > 1 then
    match toI32 (roundDp0 config.rounding_strategy ((-100 : Dec) / (decimal - 1))) with
    | some v => .ok v
    | none => .error .DecimalOverflow
  else .error .InvalidDecimal

/-- `decimal_to_american` from src/convert.rs (default parameters). -/
def decimal_to_american (decimal : Dec) : Except ConversionError ℤ :=
  decimal_to_american_custom decimal ConversionConfig.default

/-- `fractional_to_american_custom` from src/convert.rs. -/
def fractional_to_american_custom (num den : ℕ) (config : ConversionConfig) :
    Except ConversionError ℤ :=
  if den = 0 then .error .DenominatorZero
  else
    decimal_to_american_custom ((num : Dec) / (den : Dec) + 1) config

/-- `fractional_to_american` from src/convert.rs (default parameters). -/
def fractional_to_american (num den : ℕ) : Except ConversionError ℤ :=
  fractional_to_american_custom num den ConversionConfig.default

/-- The `Odds` tagged union from src/odds.rs. -/
inductive Odds where
  | American (inner : ℤ)
  | Decimal (d : Dec)
  | Fractional (num den : ℕ)
deriving DecidableEq, Repr

/-- `Odds::to_american_custom` from src/odds.rs. -/
def Odds.to_american_custom (o : Odds) (config : ConversionConfig) :
    Except ConversionError ℤ :=
  match o with
  | .American inner => .ok inner
  | .Decimal decimal => decimal_to_american_custom decimal config
  | .Fractional num den => fractional_to_american_custom num den config

/-- `Odds::to_american` from src/odds.rs. -/
def Odds.to_american (o : Odds) : Except ConversionError ℤ :=
  o.to_american_custom ConversionConfig.default

/-- `Odds::to_fractional_custom` from src/odds.rs. -/
def Odds.to_fractional_custom (o : Odds) (config : ConversionConfig) :
    Except ConversionError (ℕ × ℕ) :=
  match o with
  | .American inner => american_to_fractional_custom inner config
  | .Decimal decimal => decimal_to_fractional_custom decimal config
  | .Fractional num den =>
      if den > 0 then .ok (num, den) else .error .DenominatorZero

/-- `Odds::to_fractional` from src/odds.rs. -/
def Odds.to_fractional (o : Odds) : Except ConversionError (ℕ × ℕ) :=
  o.to_fractional_custom ConversionConfig.default

/-- `Odds::to_decimal_custom` from src/odds.rs. -/
def Odds.to_decimal_custom (o : Odds) (config : ConversionConfig) :
    Except ConversionError Dec :=
  match o with
  | .American inner => american_to_decimal_custom inner config
  | .Decimal decimal =>
      if decimal > 1 then .ok decimal else .error .InvalidDecimal
  | .Fractional num den => fractional_to_decimal num den

/-- `Odds::to_decimal` from src/odds.rs. -/
def Odds.to_decimal (o : Odds) : Except ConversionError Dec :=
  o.to_decimal_custom ConversionConfig.default

/-- `Odds::to_fractional_str_custom` from src/odds.rs: the fraction is
rendered as num then a slash then den. -/
def Odds.to_fractional_str_custom (o : Odds) (config : ConversionConfig) :
    Except ConversionError String :=
  (o.to_fractional_custom config).bind fun p =>
    .ok (toString p.1 ++ "/" ++ toString p.2)

/-- `Odds::to_fractional_str` from src/odds.rs. -/
def Odds.to_fractional_str (o : Odds) : Except ConversionError String :=
  o.to_fractional_str_custom ConversionConfig.default

/-- Rendering of a quantity of hundredths as a fixed two-decimal-place
string; models Rust formatting of a decimal that holds at most two decimal
places. -/
def formatHundredths (r : ℤ) : String :=
  let fmt : ℕ → String := fun n =>
    toString (n / 100) ++ "." ++
      (if n % 100 < 10 then "0" ++ toString (n % 100) else toString (n % 100))
  if r < 0 then "-" ++ fmt (-r).toNat else fmt r.toNat

/-- The formatting step of `Odds::to_decimal_str_custom` from src/odds.rs:
round to two decimal places with the hard-coded
`RoundingStrategy::MidpointAwayFromZero`, then print with exactly two
decimal places. -/
def formatDec2 (d : Dec) : String :=
  formatHundredths (roundInt .MidpointAwayFromZero (d * 100))

/-- `Odds::to_decimal_str_custom` from src/odds.rs. -/
def Odds.to_decimal_str_custom (o : Odds) (config : ConversionConfig) :
    Except ConversionError String :=
  (o.to_decimal_custom config).bind fun decimal => .ok (formatDec2 decimal)

/-- `Odds::to_decimal_str` from src/odds.rs. -/
def Odds.to_decimal_str (o : Odds) : Except ConversionError String :=
  o.to_decimal_str_custom ConversionConfig.default

set_option maxRecDepth 8192

/-! Helper lemmas shared by several claims. -/

/-- Every key of the basic decimal-to-fraction table exceeds 1. -/
theorem d2f_keys_gt_one : ∀ p ∈ get_decimal_to_fraction_map, (1 : Dec) < p.1 := by
  decide

/-- Every key of the extended decimal-to-fraction table exceeds 1. -/
theorem d2f_ext_keys_gt_one :
    ∀ p ∈ get_decimal_to_fraction_extended_map, (1 : Dec) < p.1 := by
  decide

/-- A value at most 1 misses every table whose keys all exceed 1. -/
theorem mapGet_none_of_keys_gt {β : Type} (l : List (Dec × β))
    (h : ∀ p ∈ l, (1 : Dec) < p.1) {v : Dec} (hv : v ≤ 1) : mapGet l v = none := by
  unfold mapGet
  rw [List.find?_eq_none.mpr]
  · rfl
  · intro p hp
    have h1 := h p hp
    simp only [decide_eq_true_eq]
    intro hEq
    rw [hEq] at h1
    exact absurd hv (not_le.mpr h1)

/-- A decimal at most 1 fails the fraction conversion with every config. -/
theorem d2f_invalid_le_one (v : Dec) (c : ConversionConfig) (hv : v ≤ 1) :
    decimal_to_fractional_custom v c = .error .InvalidDecimal := by
  have hb := mapGet_none_of_keys_gt get_decimal_to_fraction_map d2f_keys_gt_one hv
  have he := mapGet_none_of_keys_gt get_decimal_to_fraction_extended_map d2f_ext_keys_gt_one hv
  unfold decimal_to_fractional_custom
  cases c.lookup_tables_variant <;>
    cases hfs : c.fraction_strategy <;>
      simp [hb, he, hfs, decimal_to_fractional_plain, decimal_to_fractional_simplify, hv]

/-- A decimal at most 1 fails the american conversion with every config. -/
theorem d2a_invalid_le_one (v : Dec) (c : ConversionConfig) (hv : v ≤ 1) :
    decimal_to_american_custom v c = .error .InvalidDecimal := by
  have h2 : ¬ v ≥ 2 := by intro h; linarith
  have h1 : ¬ v > 1 := by intro h; linarith
  unfold decimal_to_american_custom
  simp [h1, h2]

/-- The loop never commits a denominator above 1000: every exit path of
`simplifyLoop` keeps the second component at most 1000 whenever the entry
denominator satisfies the bound. -/
theorem simplifyLoop_den_le_1000 (fuel : ℕ) :
    ∀ (eps a : Dec) (num den np dp : ℕ), den ≤ 1000 →
      (simplifyLoop fuel eps a num den np dp).2 ≤ 1000 := by
  induction fuel with
  | zero => intro eps a num den np dp h; simpa [simplifyLoop] using h
  | succ n ih =>
    intro eps a num den np dp h
    unfold simplifyLoop
    cases htu : toU64 ((⌊a⌋ : Dec)) with
    | none => simpa using h
    | some whole =>
      simp only
      split
      · simpa using h
      · rename_i hle
        split
        · simpa using Nat.le_of_not_lt hle
        · exact ih eps _ _ _ _ _ (Nat.le_of_not_lt hle)

/-- C5 core: the simplify conversion of any decimal above 1 succeeds with a
denominator between 1 and 1000. -/
theorem simplify_den_bounds (v : Dec) (hv : 1 < v) :
    ∃ n d, decimal_to_fractional_simplify v = .ok (n, d) ∧ 1 ≤ d ∧ d ≤ 1000 := by
  have hnot : ¬ v ≤ 1 := not_le.mpr hv
  obtain ⟨n0, d0, hsl⟩ :
      ∃ n0 d0, simplifyLoop simplifyFuel (min (v - 1) (1/100 : Dec)) (v - 1) 1 0 0 1
        = (n0, d0) := ⟨_, _, rfl⟩
  have hd0 : d0 ≤ 1000 := by
    have := simplifyLoop_den_le_1000 simplifyFuel (min (v - 1) (1/100 : Dec)) (v - 1)
      1 0 0 1 (by norm_num)
    rw [hsl] at this
    exact this
  refine ⟨n0 % 2^32, (if d0 = 0 then 1 else d0) % 2^32, ?_, ?_, ?_⟩
  · unfold decimal_to_fractional_simplify
    rw [if_neg hnot]
    simp only [hsl]
  · rw [Nat.mod_eq_of_lt (by split <;> omega)]
    split <;> omega
  · rw [Nat.mod_eq_of_lt (by split <;> omega)]
    split <;> omega

/-- The default rounding strategy maps an integer-valued decimal to that
integer. -/
theorem roundInt_intCast_midAway (n : ℤ) :
    roundInt .MidpointAwayFromZero ((n : Dec)) = n := by
  show (if 0 ≤ ((n : ℚ)) then ⌊(n : ℚ) + 1/2⌋ else -⌊-(n : ℚ) + 1/2⌋) = n
  have hhalf : ⌊(1/2 : ℚ)⌋ = 0 := by norm_num [Int.floor_eq_zero_iff]
  split
  · rw [Int.floor_int_add, hhalf, add_zero]
  · have h : (-(n : ℚ)) = ((-n : ℤ) : ℚ) := by push_cast; ring
    rw [h, Int.floor_int_add, hhalf, add_zero, neg_neg]

/-- Truncation of an integer-valued decimal recovers the integer. -/
theorem truncQ_intCast (n : ℤ) : truncQ ((n : Dec)) = n := by
  unfold truncQ
  split
  · exact Int.floor_intCast n
  · exact Int.ceil_intCast n

/-- An in-range integer-valued decimal narrows successfully. -/
theorem toI32_intCast (n : ℤ) (h1 : -(2^31) ≤ n) (h2 : n ≤ 2^31 - 1) :
    toI32 ((n : Dec)) = some n := by
  unfold toI32
  rw [truncQ_intCast]
  exact if_pos ⟨h1, h2⟩

/-- With lookup disabled the american-to-decimal conversion is the inner
formula. -/
theorem a2d_custom_no_lookup (a : ℤ) (c : ConversionConfig)
    (hv : c.lookup_tables_variant = .None) (ha : a ≠ 0) :
    american_to_decimal_custom a c = american_to_decimal_inner a := by
  unfold american_to_decimal_custom
  rw [if_neg ha, hv]

/-- Round-trip for the pure formula path, away from the boundary value -100:
converting an in-range american integer to decimal and back returns it. -/
theorem american_round_trip_aux (a : ℤ) (h1 : -(2^31) ≤ a) (h2 : a ≤ 2^31 - 1)
    (h3 : 100 ≤ a ∨ a ≤ -101) :
    (american_to_decimal_custom a ConversionConfig.default.no_lookup).bind
      (fun d => decimal_to_american_custom d ConversionConfig.default.no_lookup)
      = .ok a := by
  have ha : a ≠ 0 := by omega
  rw [a2d_custom_no_lookup a _ rfl ha]
  rcases h3 with hge | hle
  · have hpos : a > 0 := by omega
    have hinner : american_to_decimal_inner a = .ok ((a : Dec) / 100 + 1) := by
      unfold american_to_decimal_inner
      rw [if_pos hpos]
    rw [hinner]
    show decimal_to_american_custom ((a : Dec) / 100 + 1)
      ConversionConfig.default.no_lookup = .ok a
    have haq : (100 : ℚ) ≤ (a : ℚ) := by exact_mod_cast hge
    have hge2 : ((a : Dec) / 100 + 1) ≥ 2 := by
      rw [ge_iff_le, show (2 : Dec) = 1 + 1 from by norm_num]
      have : (1 : ℚ) ≤ (a : ℚ) / 100 := by
        rw [le_div_iff₀ (by norm_num : (0:ℚ) < 100)]
        linarith
      linarith
    unfold decimal_to_american_custom
    rw [if_pos hge2]
    rw [show (((a : Dec) / 100 + 1 - 1) * 100) = ((a : Dec)) from by ring]
    rw [show (ConversionConfig.default.no_lookup).rounding_strategy
      = .MidpointAwayFromZero from rfl]
    unfold roundDp0
    rw [roundInt_intCast_midAway, toI32_intCast a h1 h2]
    show Except.ok (normalize_american_odds a) = .ok a
    unfold normalize_american_odds
    rw [if_neg (by omega), if_neg (by omega)]
  · have hneg : a < 0 := by omega
    have hnpos : ¬ a > 0 := by omega
    have hinner : american_to_decimal_inner a = .ok ((100 : Dec) / (-(a : Dec)) + 1) := by
      unfold american_to_decimal_inner
      rw [if_neg hnpos, if_pos hneg]
    rw [hinner]
    show decimal_to_american_custom ((100 : Dec) / (-(a : Dec)) + 1)
      ConversionConfig.default.no_lookup = .ok a
    have haq : (a : ℚ) ≤ -101 := by exact_mod_cast hle
    have hapos : (0 : ℚ) < -(a : ℚ) := by linarith
    have hfrac_pos : (0 : ℚ) < (100 : ℚ) / (-(a : ℚ)) := by positivity
    have hfrac_lt1 : (100 : ℚ) / (-(a : ℚ)) < 1 := by
      rw [div_lt_one hapos]
      linarith
    have hnotge2 : ¬ ((100 : Dec) / (-(a : Dec)) + 1 ≥ 2) := by
      simp only [ge_iff_le, not_le]
      linarith
    have hgt1 : (100 : Dec) / (-(a : Dec)) + 1 > 1 := by linarith
    unfold decimal_to_american_custom
    rw [if_neg hnotge2, if_pos hgt1]
    have hane : (a : ℚ) ≠ 0 := by intro h; rw [h] at hapos; simp at hapos
    rw [show ((-100 : Dec) / ((100 : Dec) / (-(a : Dec)) + 1 - 1)) = ((a : Dec))
      from by field_simp]
    rw [show (ConversionConfig.default.no_lookup).rounding_strategy
      = .MidpointAwayFromZero from rfl]
    unfold roundDp0
    rw [roundInt_intCast_midAway, toI32_intCast a h1 h2]

/-! The claims. -/

/-- C1 (counterexample): with lookup disabled, the round trip at the american
value -100 does not return -100: the decimal 100/100 + 1 equals exactly 2, so
the v at least 2 branch applies, yielding 100. -/
theorem C1_round_trip_counterexample :
    (american_to_decimal_custom (-100) ConversionConfig.default.no_lookup).bind
      (fun d => decimal_to_american_custom d ConversionConfig.default.no_lookup)
      = .ok 100 ∧ (100 : ℤ) ≠ -100 :=
  ⟨by decide, by decide⟩

/-- C1 (amended): for every nonzero american 32-bit integer a with a at least
100 or a at most -101, with lookup tables disabled, converting to decimal by
the formula and back to american returns a; for a at least 100 the decimal is
at least 2 (that branch applies, with normalization a no-op), and for a at
most -101 the decimal lies strictly between 1 and 2.  At a = -100 the decimal
is exactly 2 and the round trip returns 100 instead. -/
theorem C1_round_trip (a : ℤ) (h1 : -(2^31) ≤ a) (h2 : a ≤ 2^31 - 1)
    (h3 : 100 ≤ a ∨ a ≤ -101) :
    (american_to_decimal_custom a ConversionConfig.default.no_lookup).bind
      (fun d => decimal_to_american_custom d ConversionConfig.default.no_lookup)
      = .ok a :=
  american_round_trip_aux a h1 h2 h3

/-- C1 (witness): the round trip at 150 and at -150. -/
theorem C1_round_trip_witness :
    (american_to_decimal_custom 150 ConversionConfig.default.no_lookup).bind
      (fun d => decimal_to_american_custom d ConversionConfig.default.no_lookup)
      = .ok 150 ∧
    (american_to_decimal_custom (-150) ConversionConfig.default.no_lookup).bind
      (fun d => decimal_to_american_custom d ConversionConfig.default.no_lookup)
      = .ok (-150) :=
  ⟨C1_round_trip 150 (by norm_num) (by norm_num) (Or.inl (by norm_num)),
   C1_round_trip (-150) (by norm_num) (by norm_num) (Or.inr (by norm_num))⟩

/-- C2 (counterexample): at american -150 with a caller configuration that
disables lookup and selects the plain fraction strategy, the code returns
(2, 3) - the decimal-to-fractional step runs under the DEFAULT configuration
(simplify strategy) - while converting the internally computed decimal 5/3
under the caller configuration would give (667, 1000). -/
theorem C2_lookup_miss_counterexample :
    american_to_fractional_custom (-150)
      (ConversionConfig.default.no_lookup.plain_fraction_strategy) = .ok (2, 3) ∧
    (american_to_decimal_inner (-150)).bind
      (fun d => decimal_to_fractional_custom d
        (ConversionConfig.default.no_lookup.plain_fraction_strategy))
      = .ok (667, 1000) ∧
    ((2, 3) : ℕ × ℕ) ≠ (667, 1000) :=
  ⟨by decide, by decide, by decide⟩

/-- C2 (amended): when the lookup is disabled, or the american-to-fractional
basic and extended lookups miss, the conversion equals converting to decimal
by the internal formula and then converting that decimal to fractional under
the DEFAULT configuration, not the caller configuration. -/
theorem C2_lookup_miss_falls_to_default_pipeline (value : ℤ) (c : ConversionConfig)
    (h : c.lookup_tables_variant = .None ∨
      (mapGet get_american_to_fraction_map value = none ∧
       mapGet get_american_to_fraction_extended_map value = none)) :
    american_to_fractional_custom value c =
      (american_to_decimal_inner value).bind (fun d => decimal_to_fractional d) := by
  unfold american_to_fractional_custom
  rcases h with hvar | ⟨hb, he⟩
  · rw [hvar]
  · cases hvar : c.lookup_tables_variant <;> simp [hb, he]

/-- C2 (witness): the counterexample's own input -150 with lookup disabled (a
tabulated key, exercising the disabled arm), and american -137 under the
default configuration (exercising the table-miss arm). -/
theorem C2_lookup_miss_witness :
    american_to_fractional_custom (-150) ConversionConfig.default.no_lookup =
      (american_to_decimal_inner (-150)).bind (fun d => decimal_to_fractional d) ∧
    american_to_fractional_custom (-137) ConversionConfig.default =
      (american_to_decimal_inner (-137)).bind (fun d => decimal_to_fractional d) :=
  ⟨C2_lookup_miss_falls_to_default_pipeline (-150) ConversionConfig.default.no_lookup
      (Or.inl rfl),
   C2_lookup_miss_falls_to_default_pipeline (-137) ConversionConfig.default
      (Or.inr ⟨by decide, by decide⟩)⟩

/-- C3 (counterexample): the american identity conversion applies no check:
`Odds::American(0)` converts to american as Ok(0) instead of failing with
AmericanZero. -/
theorem C3_identity_counterexample :
    (Odds.American 0).to_american = .ok 0 ∧
    (Except.ok 0 : Except ConversionError ℤ) ≠ .error .AmericanZero :=
  ⟨by decide, by decide⟩

/-- C3 (amended): identity conversions return the held value; the decimal
identity path checks the value exceeds 1 (else InvalidDecimal) and the
fractional identity path checks the denominator is positive (else
DenominatorZero), but the american identity path performs no check at all and
returns even 0 unchanged. -/
theorem C3_identity_conversions :
    (∀ (a : ℤ) (c : ConversionConfig),
      (Odds.American a).to_american_custom c = .ok a) ∧
    (∀ (d : Dec) (c : ConversionConfig), 1 < d →
      (Odds.Decimal d).to_decimal_custom c = .ok d) ∧
    (∀ (d : Dec) (c : ConversionConfig), d ≤ 1 →
      (Odds.Decimal d).to_decimal_custom c = .error .InvalidDecimal) ∧
    (∀ (n den : ℕ) (c : ConversionConfig), 0 < den →
      (Odds.Fractional n den).to_fractional_custom c = .ok (n, den)) ∧
    (∀ (n : ℕ) (c : ConversionConfig),
      (Odds.Fractional n 0).to_fractional_custom c = .error .DenominatorZero) := by
  refine ⟨fun a c => rfl, fun d c h => ?_, fun d c h => ?_, fun n den c h => ?_,
    fun n c => rfl⟩
  · show (if d > 1 then Except.ok d else Except.error ConversionError.InvalidDecimal)
      = Except.ok d
    rw [if_pos h]
  · show (if d > 1 then Except.ok d else Except.error ConversionError.InvalidDecimal)
      = Except.error ConversionError.InvalidDecimal
    rw [if_neg (not_lt.mpr h)]
  · show (if den > 0 then Except.ok (n, den)
        else Except.error ConversionError.DenominatorZero) = Except.ok (n, den)
    rw [if_pos h]

/-- C3 (witness): concrete instances of the checked identity paths. -/
theorem C3_identity_witness :
    (Odds.Decimal (1 : Dec)).to_decimal_custom ConversionConfig.default
      = .error .InvalidDecimal ∧
    (Odds.Fractional 3 0).to_fractional_custom ConversionConfig.default
      = .error .DenominatorZero ∧
    (Odds.Decimal (7/4 : Dec)).to_decimal_custom ConversionConfig.default
      = .ok (7/4 : Dec) :=
  ⟨C3_identity_conversions.2.2.1 1 ConversionConfig.default le_rfl,
   C3_identity_conversions.2.2.2.2 3 ConversionConfig.default,
   C3_identity_conversions.2.1 (7/4) ConversionConfig.default (by norm_num)⟩

/-- C4: a decimal at most 1 always fails both decimal conversions with
InvalidDecimal, under every configuration; every key of both
decimal-to-fraction lookup tables exceeds 1, so no table entry can intercept
the call. -/
theorem C4_invalid_decimal (v : Dec) (c : ConversionConfig) (hv : v ≤ 1) :
    decimal_to_fractional_custom v c = .error .InvalidDecimal ∧
    decimal_to_american_custom v c = .error .InvalidDecimal :=
  ⟨d2f_invalid_le_one v c hv, d2a_invalid_le_one v c hv⟩

/-- C4 (witness): the boundary inputs 1 and 99/100 with the default and the
extended-lookup configurations. -/
theorem C4_invalid_decimal_witness :
    decimal_to_fractional_custom (1 : Dec) ConversionConfig.default
      = .error .InvalidDecimal ∧
    decimal_to_american_custom (99/100 : Dec) ConversionConfig.default.extended_lookup
      = .error .InvalidDecimal :=
  ⟨(C4_invalid_decimal 1 ConversionConfig.default le_rfl).1,
   (C4_invalid_decimal (99/100) ConversionConfig.default.extended_lookup
      (by norm_num)).2⟩

/-- C5: for every decimal above 1 the simplify conversion succeeds and its
denominator lies between 1 and 1000: updates that would push the denominator
over 1000 are never committed, and a final denominator of 0 is forced to 1. -/
theorem C5_simplify_denominator_bounds (v : Dec) (hv : 1 < v) :
    ∃ n d, decimal_to_fractional_simplify v = .ok (n, d) ∧ 1 ≤ d ∧ d ≤ 1000 :=
  simplify_den_bounds v hv

/-- C5 (witness): at the exact integer 2 the loop ends with denominator 0,
forced to 1. -/
theorem C5_simplify_denominator_witness :
    decimal_to_fractional_simplify (2 : Dec) = .ok (1, 1) ∧
    (1 < (2 : Dec) ∧ ∃ n d, decimal_to_fractional_simplify (2 : Dec) = .ok (n, d)
      ∧ 1 ≤ d ∧ d ≤ 1000) :=
  ⟨by decide, by norm_num, C5_simplify_denominator_bounds 2 (by norm_num)⟩

/-- C7: odds normalization as specified - small positive magnitudes flip to
negative via integer division of -10000, small negative magnitudes flip to
positive, everything else (including 0) passes through. -/
theorem C7_normalize (x : ℤ) :
    ((1 ≤ x ∧ x ≤ 99) → normalize_american_odds x = -(Int.tdiv 10000 x)) ∧
    ((-99 ≤ x ∧ x ≤ -1) → normalize_american_odds x = Int.tdiv 10000 (-x)) ∧
    ((100 ≤ x ∨ x ≤ -100 ∨ x = 0) → normalize_american_odds x = x) := by
  unfold normalize_american_odds
  refine ⟨fun h => ?_, fun h => ?_, fun h => ?_⟩
  · rw [if_pos (by omega : x > 0 ∧ x < 100)]
    norm_num
  · rw [if_neg (by omega : ¬(x > 0 ∧ x < 100)),
      if_pos (by omega : x < 0 ∧ x > -100)]
    norm_num
  · rw [if_neg (by omega : ¬(x > 0 ∧ x < 100)),
      if_neg (by omega : ¬(x < 0 ∧ x > -100))]

/-- C7 (witness): the specification's concrete normalization examples. -/
theorem C7_normalize_witness :
    normalize_american_odds 50 = -(Int.tdiv 10000 50) ∧
    normalize_american_odds (-50) = Int.tdiv 10000 50 ∧
    normalize_american_odds 500 = 500 :=
  ⟨(C7_normalize 50).1 ⟨by norm_num, by norm_num⟩,
   (C7_normalize (-50)).2.1 ⟨by norm_num, by norm_num⟩,
   (C7_normalize 500).2.2 (Or.inl (by norm_num))⟩

/-- C8: at decimal 101 with lookup disabled and the plain strategy, the
rounded numerator 100000 shares the full divisor 100000 with the constant,
the denominator 1000/100000 truncates to 0, and the conversion returns
Ok (1, 0) - a degenerate fraction - rather than an error. -/
theorem C8_plain_degenerate_denominator :
    decimal_to_fractional_plain (101 : Dec)
      (ConversionConfig.default.no_lookup.plain_fraction_strategy) = .ok (1, 0) ∧
    decimal_to_fractional_custom (101 : Dec)
      (ConversionConfig.default.no_lookup.plain_fraction_strategy) = .ok (1, 0) :=
  ⟨by decide, by decide⟩

/-- C6: lookup precedence.  American -150 under the default (basic-lookup)
configuration yields the tabulated decimal 1.67 and the curated UK fraction
(4, 6), while the formula path yields 5/3 and the reduced (2, 3), and each
pair differs; under the Basic variant every table hit is returned as-is by
each of the three lookup-consulting conversions; under the Extended variant a
basic-table hit wins regardless of the extended table, a key present only in
the extended table is returned after the basic miss, and a miss in every
selected table falls through to the computation. -/
theorem C6_lookup_precedence :
    (american_to_decimal_custom (-150) ConversionConfig.default
      = .ok (167/100 : Dec)) ∧
    (american_to_decimal_custom (-150) ConversionConfig.default.no_lookup
      = .ok ((5 : Dec)/3)) ∧
    ((167/100 : Dec) ≠ (5 : Dec)/3) ∧
    (american_to_fractional_custom (-150) ConversionConfig.default
      = .ok (4, 6)) ∧
    (american_to_fractional_custom (-150) ConversionConfig.default.no_lookup
      = .ok (2, 3)) ∧
    (((4, 6) : ℕ × ℕ) ≠ (2, 3)) ∧
    (∀ (v : Dec) (c : ConversionConfig) (r : ℕ × ℕ),
      c.lookup_tables_variant = .Basic →
      mapGet get_decimal_to_fraction_map v = some r →
      decimal_to_fractional_custom v c = .ok r) ∧
    (∀ (a : ℤ) (c : ConversionConfig) (r : Dec),
      c.lookup_tables_variant = .Basic → a ≠ 0 →
      mapGet get_american_to_decimal_map a = some r →
      american_to_decimal_custom a c = .ok r) ∧
    (∀ (a : ℤ) (c : ConversionConfig) (r : ℕ × ℕ),
      c.lookup_tables_variant = .Basic →
      mapGet get_american_to_fraction_map a = some r →
      american_to_fractional_custom a c = .ok r) ∧
    (∀ (v : Dec) (c : ConversionConfig) (r : ℕ × ℕ),
      c.lookup_tables_variant = .Extended →
      mapGet get_decimal_to_fraction_map v = some r →
      decimal_to_fractional_custom v c = .ok r) ∧
    (∀ (v : Dec) (c : ConversionConfig) (r : ℕ × ℕ),
      c.lookup_tables_variant = .Extended →
      mapGet get_decimal_to_fraction_map v = none →
      mapGet get_decimal_to_fraction_extended_map v = some r →
      decimal_to_fractional_custom v c = .ok r) ∧
    (∀ (a : ℤ) (c : ConversionConfig) (r : Dec),
      c.lookup_tables_variant = .Extended → a ≠ 0 →
      mapGet get_american_to_decimal_map a = some r →
      american_to_decimal_custom a c = .ok r) ∧
    (∀ (a : ℤ) (c : ConversionConfig) (r : ℕ × ℕ),
      c.lookup_tables_variant = .Extended →
      mapGet get_american_to_fraction_map a = some r →
      american_to_fractional_custom a c = .ok r) ∧
    (∀ (v : Dec) (c : ConversionConfig),
      c.lookup_tables_variant = .Extended →
      mapGet get_decimal_to_fraction_map v = none →
      mapGet get_decimal_to_fraction_extended_map v = none →
      (c.fraction_strategy = .Plain →
        decimal_to_fractional_custom v c = decimal_to_fractional_plain v c) ∧
      (c.fraction_strategy = .Simplify →
        decimal_to_fractional_custom v c = decimal_to_fractional_simplify v)) ∧
    (∀ (a : ℤ) (c : ConversionConfig),
      c.lookup_tables_variant = .Extended → a ≠ 0 →
      mapGet get_american_to_decimal_map a = none →
      american_to_decimal_custom a c = american_to_decimal_inner a) ∧
    (∀ (a : ℤ) (c : ConversionConfig),
      c.lookup_tables_variant = .Extended →
      mapGet get_american_to_fraction_map a = none →
      mapGet get_american_to_fraction_extended_map a = none →
      american_to_fractional_custom a c =
        (american_to_decimal_inner a).bind (fun d => decimal_to_fractional d)) := by
  refine ⟨by decide, by decide, by decide, by decide, by decide, by decide,
    ?_, ?_, ?_, ?_, ?_, ?_, ?_, ?_, ?_, ?_⟩
  · intro v c r hvar hbr
    unfold decimal_to_fractional_custom
    rw [hvar, hbr]
  · intro a c r hvar ha hbr
    unfold american_to_decimal_custom
    rw [if_neg ha, hvar, hbr]
  · intro a c r hvar hbr
    unfold american_to_fractional_custom
    rw [hvar, hbr]
  · intro v c r hvar hbr
    unfold decimal_to_fractional_custom
    rw [hvar, hbr]
    rfl
  · intro v c r hvar hb her
    unfold decimal_to_fractional_custom
    rw [hvar, hb, her]
    rfl
  · intro a c r hvar ha hbr
    unfold american_to_decimal_custom
    rw [if_neg ha, hvar, hbr]
    rfl
  · intro a c r hvar hbr
    unfold american_to_fractional_custom
    rw [hvar, hbr]
    rfl
  · intro v c hvar hb he
    constructor <;>
      (intro hfs
       unfold decimal_to_fractional_custom
       rw [hvar, hb, he, hfs]
       rfl)
  · intro a c hvar ha hb
    unfold american_to_decimal_custom
    rw [if_neg ha, hvar, hb]
    rfl
  · intro a c hvar hb he
    unfold american_to_fractional_custom
    rw [hvar, hb, he]
    rfl

/-- C6 (witness): a basic-table hit under the Basic variant, a hit on a key
present only in the extended table (1.0013, after the basic miss), a
basic-table hit of the american-to-fractional conversion, and a basic-table
hit under the Extended variant. -/
theorem C6_lookup_precedence_witness :
    decimal_to_fractional_custom (3/2 : Dec) ConversionConfig.default
      = .ok (1, 2) ∧
    decimal_to_fractional_custom (10013/10000 : Dec)
      ConversionConfig.default.extended_lookup = .ok (1, 750) ∧
    american_to_fractional_custom 250 ConversionConfig.default = .ok (5, 2) ∧
    american_to_decimal_custom (-150) ConversionConfig.default.extended_lookup
      = .ok (167/100 : Dec) := by
  obtain ⟨-, -, -, -, -, -, hB1, -, hB3, -, hE2, hE3, -, -, -, -⟩ :=
    C6_lookup_precedence
  exact ⟨hB1 (3/2) ConversionConfig.default (1, 2) rfl (by decide),
    hE2 (10013/10000) ConversionConfig.default.extended_lookup (1, 750) rfl
      (by decide) (by decide),
    hB3 250 ConversionConfig.default (5, 2) rfl (by decide),
    hE3 (-150) ConversionConfig.default.extended_lookup (167/100) rfl
      (by decide) (by decide)⟩

/-- The decimal conversion of the wrapper never reads the rounding strategy:
changing it leaves the result unchanged. -/
theorem to_decimal_custom_rounding_invariant (o : Odds) (c : ConversionConfig)
    (s : RoundingStrategy) :
    Odds.to_decimal_custom o (c.with_rounding_strategy s) = Odds.to_decimal_custom o c := by
  cases o <;> rfl

/-- C9: the string conversions format exactly as the source hard-codes them:
the decimal string is the successfully converted decimal rounded to two
places with the fixed midpoint-away-from-zero strategy (`formatDec2`),
independent of the configured rounding strategy, and the fractional string is
num, a slash, then den. -/
theorem C9_string_formatting (o : Odds) (c : ConversionConfig) (s : RoundingStrategy) :
    Odds.to_decimal_str_custom o (c.with_rounding_strategy s)
      = Odds.to_decimal_str_custom o c ∧
    Odds.to_decimal_str_custom o c
      = (Odds.to_decimal_custom o c).bind (fun d => .ok (formatDec2 d)) ∧
    Odds.to_fractional_str_custom o c
      = (Odds.to_fractional_custom o c).bind
          (fun p => .ok (toString p.1 ++ "/" ++ toString p.2)) := by
  refine ⟨?_, rfl, rfl⟩
  unfold Odds.to_decimal_str_custom
  rw [to_decimal_custom_rounding_invariant]

/-- C10: a zero-numerator fraction with positive denominator converts to the
decimal exactly 1 - outside the documented strictly-above-1 range - both
directly and through the wrapper, and feeding that 1 into the decimal
conversions fails with InvalidDecimal. -/
theorem C10_zero_numerator (den : ℕ) (h : 0 < den) :
    fractional_to_decimal 0 den = .ok 1 ∧
    (Odds.Fractional 0 den).to_decimal = .ok 1 ∧
    decimal_to_american (1 : Dec) = .error .InvalidDecimal ∧
    decimal_to_fractional (1 : Dec) = .error .InvalidDecimal := by
  have hne : den ≠ 0 := Nat.pos_iff_ne_zero.mp h
  have h1 : fractional_to_decimal 0 den = .ok 1 := by
    unfold fractional_to_decimal
    rw [if_neg hne]
    norm_num
  exact ⟨h1, h1, d2a_invalid_le_one 1 ConversionConfig.default le_rfl,
    d2f_invalid_le_one 1 ConversionConfig.default le_rfl⟩

/-- C10 (witness): denominator 5. -/
theorem C10_zero_numerator_witness :
    fractional_to_decimal 0 5 = .ok 1 ∧ (Odds.Fractional 0 5).to_decimal = .ok 1 :=
  ⟨(C10_zero_numerator 5 (by norm_num)).1, (C10_zero_numerator 5 (by norm_num)).2.1⟩

end
